import Mathlib

/-!
Verification of the `logdog` build script (`sources/logdog/build.rs`).

The script does two things before the crate is compiled:

* `symlink_variant` reads the `VARIANT` environment variable, requires a
  file `conf/logdog.$VARIANT.conf`, and (re)creates the symbolic link
  `conf/current/logdog.conf` pointing to `../logdog.$VARIANT.conf`,
  exiting the process with status 1 (after printing a diagnostic on
  stderr) on any failure;
* `generate_readme` regenerates `README.md` from `src/main.rs` and
  `README.tpl` via the external `cargo_readme` crate, unless the
  `SKIP_README` environment variable is present.

We model the environment as an association list of variables, the
filesystem as an association list from paths (lists of components) to
entries (regular file, directory, or symbolic link), and a process
outcome as the final filesystem together with an optional exit code, the
stdout lines, the stderr diagnostics and a trace of filesystem
operations attempted.
-/

namespace LogdogBuild

/-- Paths are lists of components, e.g. `["conf", "current", "logdog.conf"]`
for the Rust path string `"conf/current/logdog.conf"`. -/
abbrev Path := List String

/-- Filesystem entries: regular files (with contents as a list of lines),
directories, and symbolic links (whose stored target is a relative path,
possibly containing `".."` components). -/
inductive FsEntry where
  | file (content : List String)
  | dir
  | symlink (target : Path)
deriving DecidableEq, Repr

/-- The filesystem is an association list from paths to entries. -/
abbrev Fs := List (Path × FsEntry)

/-- Look up the entry at a path (first binding wins). -/
def Fs.lookup : Fs → Path → Option FsEntry
  | [], _ => none
  | (q, e) :: rest, p => if q = p then some e else Fs.lookup rest p

/-- Remove every binding at a path. -/
def Fs.remove : Fs → Path → Fs
  | [], _ => []
  | (q, e) :: rest, p =>
      if q = p then Fs.remove rest p else (q, e) :: Fs.remove rest p

/-- Bind a path to an entry, shadowing any previous binding. -/
def Fs.set (fs : Fs) (p : Path) (e : FsEntry) : Fs :=
  (p, e) :: Fs.remove fs p

/-- Normalize a list of path components, resolving `".."` against the
preceding components and dropping `"."`. -/
def normComps (cs : List String) : Path :=
  cs.foldl
    (fun acc c =>
      if c = ".." then acc.dropLast else if c = "." then acc else acc ++ [c])
    []

/-- Resolve a relative target against the directory it is interpreted
from, as the kernel does when following a symbolic link. -/
def resolveRel (dir : Path) (target : Path) : Path :=
  normComps (dir ++ target)

/-- Resolve a path to the contents of a regular file, following symbolic
links, with fuel bounding the number of hops. -/
def Fs.resolve : Fs → Nat → Path → Option (List String)
  | _, 0, _ => none
  | fs, n + 1, p =>
      match Fs.lookup fs p with
      | some (FsEntry.file c) => some c
      | some (FsEntry.symlink t) => Fs.resolve fs n (resolveRel p.dropLast t)
      | _ => none

/-- Read a regular file, following symbolic links (enough fuel for any
acyclic chain in the filesystem). -/
def Fs.readFile (fs : Fs) (p : Path) : Option (List String) :=
  Fs.resolve fs (fs.length + 1) p

/-- Model of Rust's `Path::is_file`: the path resolves (following
symbolic links) to a regular file. -/
def Fs.is_file (fs : Fs) (p : Path) : Bool :=
  (Fs.readFile fs p).isSome

/-- Follow exactly one symbolic-link hop from `p`. -/
def followOneHop (fs : Fs) (p : Path) : Option Path :=
  match Fs.lookup fs p with
  | some (FsEntry.symlink t) => some (resolveRel p.dropLast t)
  | _ => none

/-- The error kinds of `std::io` distinguished by the script. `other`
stands for every kind the script never inspects. -/
inductive IOErrorKind where
  | notFound
  | alreadyExists
  | isADirectory
  | other
deriving DecidableEq, Repr

/-- Model of `std::fs::remove_file`: removes the entry (a symbolic link
is removed itself, not followed); fails with `NotFound` when nothing is
there and with an `IsADirectory` error on a directory. -/
def remove_file (fs : Fs) (p : Path) : Except IOErrorKind Fs :=
  match Fs.lookup fs p with
  | none => Except.error IOErrorKind.notFound
  | some FsEntry.dir => Except.error IOErrorKind.isADirectory
  | some _ => Except.ok (Fs.remove fs p)

/-- Model of `std::os::unix::fs::symlink`: fails when an entry already
exists at the link path or when the link's parent directory does not
exist; otherwise records the (unchecked) target. -/
def symlink_create (fs : Fs) (target link : Path) : Except IOErrorKind Fs :=
  if (Fs.lookup fs link).isSome then Except.error IOErrorKind.alreadyExists
  else if Fs.lookup fs link.dropLast = some FsEntry.dir then
    Except.ok (Fs.set fs link (FsEntry.symlink target))
  else Except.error IOErrorKind.notFound

/-- Filesystem operations attempted by the script, recorded as a trace. -/
inductive FsOp where
  | statFile (p : Path)
  | removeFile (p : Path)
  | createSymlink (target : Path) (link : Path)
  | openRead (p : Path)
  | createWrite (p : Path)
deriving DecidableEq, Repr

/-- Outcome of `symlink_force`: the resulting filesystem, the error (if
any) and the trace of attempted operations. -/
structure SfOut where
  fs : Fs
  err : Option IOErrorKind
  trace : List FsOp
deriving DecidableEq, Repr

/-- Creation half of `symlink_force`: attempt to create the link on the
filesystem left by the removal step. -/
def sfCreate (target link : Path) (fs : Fs) (tr : List FsOp) : SfOut :=
  match symlink_create fs target link with
  | Except.error e => ⟨fs, some e, tr ++ [FsOp.createSymlink target link]⟩
  | Except.ok fs2 => ⟨fs2, none, tr ++ [FsOp.createSymlink target link]⟩

/-- Model of `symlink_force`: remove the link if it already exists (a
`NotFound` failure of the removal is ignored, any other removal failure
is returned), then create the symbolic link. -/
def symlink_force (target link : Path) (fs : Fs) : SfOut :=
  match remove_file fs link with
  | Except.error e =>
      if e = IOErrorKind.notFound then
        sfCreate target link fs [FsOp.removeFile link]
      else ⟨fs, some e, [FsOp.removeFile link]⟩
  | Except.ok fs1 => sfCreate target link fs1 [FsOp.removeFile link]

/-- The process environment: an association list of variables. -/
abbrev Env := List (String × String)

/-- Look up an environment variable; models both `env::var` (where
`none` is the `VarError::NotPresent` error) and `env::var_os`. -/
def envVar : Env → String → Option String
  | [], _ => none
  | (k, v) :: rest, name => if k = name then some v else envVar rest name

/-- The `ENV_VARIANT` constant of the script. -/
def ENV_VARIANT : String := "VARIANT"

/-- Call sites in `generate_readme` whose `.unwrap()` can panic on a
missing file. -/
inductive PanicSite where
  | openSource
  | openTemplate
  | createReadme
deriving DecidableEq, Repr

/-- Diagnostics the script can emit on stderr before terminating. -/
inductive Diag where
  | missingVariant
  | noConfFile (variant : String)
  | symlinkFailed (link target : Path) (e : IOErrorKind)
  | panicked (site : PanicSite) (e : IOErrorKind)
deriving DecidableEq, Repr

/-- Render a path as the Rust code's path strings do. -/
def pathStr (p : Path) : String := String.intercalate "/" p

/-- The `Display` rendering of the modelled I/O errors. -/
def ioErrorDisplay : IOErrorKind → String
  | IOErrorKind.notFound => "No such file or directory (os error 2)"
  | IOErrorKind.alreadyExists => "File exists (os error 17)"
  | IOErrorKind.isADirectory => "Is a directory (os error 21)"
  | IOErrorKind.other => "other error"

/-- The `Debug` rendering of the modelled I/O errors, as a panic prints
them. -/
def ioErrorDebug : IOErrorKind → String
  | IOErrorKind.notFound =>
      "Os \x7b code: 2, kind: NotFound, message: \"No such file or directory\" \x7d"
  | IOErrorKind.alreadyExists =>
      "Os \x7b code: 17, kind: AlreadyExists, message: \"File exists\" \x7d"
  | IOErrorKind.isADirectory =>
      "Os \x7b code: 21, kind: IsADirectory, message: \"Is a directory\" \x7d"
  | IOErrorKind.other => "Custom \x7b kind: Other \x7d"

/-- The exact message each diagnostic puts on stderr (the `eprintln!`
format strings of the script with their arguments interpolated; a panic
prints the standard `unwrap` message with the error's `Debug` form). -/
def Diag.message : Diag → String
  | Diag.missingVariant =>
      "For local builds, you must set the VARIANT environment variable so we know which logdog commands to build. Valid values are the directories in models/src/variants/, for example 'aws-k8s-1.17'."
  | Diag.noConfFile v =>
      "There is no file named '" ++
        (v ++
          "' in the 'conf' directory for the current variant (given by the 'VARIANT' environment variable) Each variant must have a file representing the variant-specific commands that logdog will run.")
  | Diag.symlinkFailed link target e =>
      "Failed to create symlink at '" ++
        (pathStr link ++
          ("' pointing to '" ++
            (pathStr target ++
              ("' - we need this to support different logdog commands for variants.  Error: " ++
                ioErrorDisplay e))))
  | Diag.panicked _ e =>
      "called `Result::unwrap()` on an `Err` value: " ++ ioErrorDebug e

/-- Containment of one string in another: the haystack splits as
`pre ++ (needle ++ post)`. -/
def strContains (hay needle : String) : Prop :=
  ∃ pre post, hay = pre ++ (needle ++ post)

/-- Boolean prefix test on character lists. -/
def startsWithChars : List Char → List Char → Bool
  | [], _ => true
  | _ :: _, [] => false
  | a :: as, b :: bs => decide (a = b) && startsWithChars as bs

/-- Boolean substring test on character lists. -/
def containsChars : List Char → List Char → Bool
  | needle, [] => needle.isEmpty
  | needle, b :: bs => startsWithChars needle (b :: bs) || containsChars needle bs

/-- Outcome of running (part of) the build script: final filesystem,
optional exit code (`none` when the function returns normally), stdout
lines, stderr diagnostics, and the trace of filesystem operations. -/
structure ProcResult where
  fs : Fs
  exit : Option Nat
  stdout : List String
  stderr : List Diag
  trace : List FsOp
deriving DecidableEq, Repr

/-- Model of `symlink_variant`: prints the cargo rerun line, reads
`VARIANT` (exiting 1 with a diagnostic when unset), requires
`conf/logdog.$VARIANT.conf` to be a file (exiting 1 with a diagnostic
otherwise), and force-creates the symbolic link
`conf/current/logdog.conf -> ../logdog.$VARIANT.conf` (exiting 1 with a
diagnostic when that fails). -/
def symlink_variant (env : Env) (fs : Fs) : ProcResult :=
  let out := ["cargo:rerun-if-env-changed=" ++ ENV_VARIANT]
  match envVar env ENV_VARIANT with
  | none => ⟨fs, some 1, out, [Diag.missingVariant], []⟩
  | some variant =>
      let variant_filename := "logdog." ++ (variant ++ ".conf")
      if Fs.is_file fs ["conf", variant_filename] = false then
        ⟨fs, some 1, out, [Diag.noConfFile variant],
          [FsOp.statFile ["conf", variant_filename]]⟩
      else
        let target : Path := ["..", variant_filename]
        let link : Path := ["conf", "current", "logdog.conf"]
        let r := symlink_force target link fs
        match r.err with
        | some e =>
            ⟨r.fs, some 1, out, [Diag.symlinkFailed link target e],
              FsOp.statFile ["conf", variant_filename] :: r.trace⟩
        | none =>
            ⟨r.fs, none, out, [],
              FsOp.statFile ["conf", variant_filename] :: r.trace⟩

/-- Modelled from the spec: line extraction done by the external
`cargo_readme` crate (not part of this repository) — the doc comment
lines `//! ...` of the crate's entry point are the extracted
documentation text. -/
def extractDocLine (l : String) : Option String :=
  if l = "//!" then some ""
  else if l.startsWith "//! " then some (l.drop 4) else none

/-- Modelled from the spec: heading re-indentation done by the external
`cargo_readme` crate — every heading line gains one level. -/
def indentHeading (l : String) : String :=
  match l.data with
  | c :: _ => if c = '#' then "#" ++ l else l
  | [] => l

/-- The `\x7b\x7breadme\x7d\x7d` placeholder line of a template. -/
def readmePlaceholder : String := "\x7b\x7breadme\x7d\x7d"

/-- Modelled from the spec: the external `cargo_readme::generate_readme`
(the crate is not part of this repository). Per the spec it extracts the
documentation embedded in the entry-point source, optionally re-indents
its headings by one level, optionally prepends a title derived from the
artifact name (and badges / license boilerplate when those flags are
set), and substitutes the result into the template's structure at the
placeholder line. -/
def cargo_readme_generate (crateName : String) (source template : List String)
    (addTitle addBadges addLicense indentHeadings : Bool) : List String :=
  let docs := source.filterMap extractDocLine
  let docs := if indentHeadings then docs.map indentHeading else docs
  let title := if addTitle then ["# " ++ crateName] else []
  let badges := if addBadges then ["badges"] else []
  let license := if addLicense then ["license"] else []
  let body := title ++ (badges ++ (docs ++ license))
  template.flatMap (fun l => if l = readmePlaceholder then body else [l])

/-- Model of `generate_readme`: skip when `SKIP_README` is present
(regardless of its value); otherwise open `src/main.rs` and
`README.tpl` (an `.unwrap()` panic — exit code 101 — when either cannot
be opened), run the documentation generator with flags
`(add title, no badges, no license, indent headings)`, and
create/truncate `README.md` with the result (a panic when the path is a
directory). -/
def generate_readme (env : Env) (fs : Fs) : ProcResult :=
  if (envVar env "SKIP_README").isSome then ⟨fs, none, [], [], []⟩
  else
    match Fs.readFile fs ["src", "main.rs"] with
    | none =>
        ⟨fs, some 101, [], [Diag.panicked PanicSite.openSource IOErrorKind.notFound],
          [FsOp.openRead ["src", "main.rs"]]⟩
    | some source =>
        match Fs.readFile fs ["README.tpl"] with
        | none =>
            ⟨fs, some 101, [],
              [Diag.panicked PanicSite.openTemplate IOErrorKind.notFound],
              [FsOp.openRead ["src", "main.rs"], FsOp.openRead ["README.tpl"]]⟩
        | some template =>
            let content :=
              cargo_readme_generate "logdog" source template true false false true
            if Fs.lookup fs ["README.md"] = some FsEntry.dir then
              ⟨fs, some 101, [],
                [Diag.panicked PanicSite.createReadme IOErrorKind.isADirectory],
                [FsOp.openRead ["src", "main.rs"], FsOp.openRead ["README.tpl"],
                  FsOp.createWrite ["README.md"]]⟩
            else
              ⟨Fs.set fs ["README.md"] (FsEntry.file content), none, [], [],
                [FsOp.openRead ["src", "main.rs"], FsOp.openRead ["README.tpl"],
                  FsOp.createWrite ["README.md"]]⟩

/-- Model of `main`: run `symlink_variant`, then (only when it returned
rather than exiting the process) run `generate_readme`. -/
def main (env : Env) (fs : Fs) : ProcResult :=
  let r1 := symlink_variant env fs
  match r1.exit with
  | some _ => r1
  | none =>
      let r2 := generate_readme env r1.fs
      ⟨r2.fs, r2.exit, r1.stdout ++ r2.stdout, r1.stderr ++ r2.stderr,
        r1.trace ++ r2.trace⟩

/-! ### Concrete inputs used by witnesses -/

/-- Witness environment selecting variant `a`. -/
def wEnvA : Env := [("VARIANT", "a")]

/-- Witness environment selecting variant `b`. -/
def wEnvB : Env := [("VARIANT", "b")]

/-- Witness filesystem with catalog files for variants `a` and `b`. -/
def wFsAB : Fs :=
  [(["conf"], FsEntry.dir),
    (["conf", "logdog.a.conf"], FsEntry.file ["one"]),
    (["conf", "logdog.b.conf"], FsEntry.file ["two"]),
    (["conf", "current"], FsEntry.dir)]

/-- Witness environment selecting variant `x` (doc generation enabled). -/
def wEnvX : Env := [("VARIANT", "x")]

/-- Witness filesystem for a full, successful `main` run. -/
def wFsX : Fs :=
  [(["conf"], FsEntry.dir),
    (["conf", "logdog.x.conf"], FsEntry.file ["cmd"]),
    (["conf", "current"], FsEntry.dir),
    (["src", "main.rs"], FsEntry.file ["//! d"]),
    (["README.tpl"], FsEntry.file [readmePlaceholder])]

/-! ### Association-list lemmas -/

theorem Fs.lookup_remove_self (fs : Fs) (p : Path) :
    Fs.lookup (Fs.remove fs p) p = none := by
  induction fs with
  | nil => rfl
  | cons hd tl ih =>
      obtain ⟨q, e⟩ := hd
      by_cases h : q = p
      · simp [Fs.remove, h, ih]
      · simp [Fs.remove, Fs.lookup, h, ih]

theorem Fs.lookup_remove_ne (fs : Fs) (p q : Path) (h : q ≠ p) :
    Fs.lookup (Fs.remove fs p) q = Fs.lookup fs q := by
  induction fs with
  | nil => rfl
  | cons hd tl ih =>
      obtain ⟨r, e⟩ := hd
      simp only [Fs.remove]
      by_cases hr : r = p
      · rw [if_pos hr, ih]
        have hpq : ¬(r = q) := by
          intro hq
          exact h (hq ▸ hr)
        simp only [Fs.lookup]
        rw [if_neg hpq]
      · rw [if_neg hr]
        simp only [Fs.lookup]
        by_cases hq : r = q
        · rw [if_pos hq, if_pos hq]
        · rw [if_neg hq, if_neg hq, ih]

theorem Fs.lookup_set_self (fs : Fs) (p : Path) (e : FsEntry) :
    Fs.lookup (Fs.set fs p e) p = some e := by
  simp [Fs.set, Fs.lookup]

theorem Fs.lookup_set_ne (fs : Fs) (p q : Path) (e : FsEntry) (h : q ≠ p) :
    Fs.lookup (Fs.set fs p e) q = Fs.lookup fs q := by
  have : p ≠ q := fun hp => h hp.symm
  simp [Fs.set, Fs.lookup, this, Fs.lookup_remove_ne fs p q h]

theorem Fs.remove_of_lookup_none (fs : Fs) (p : Path)
    (h : Fs.lookup fs p = none) : Fs.remove fs p = fs := by
  induction fs with
  | nil => rfl
  | cons hd tl ih =>
      obtain ⟨q, e⟩ := hd
      by_cases hq : q = p
      · simp [Fs.lookup, hq] at h
      · simp [Fs.lookup, hq] at h
        simp [Fs.remove, hq, ih h]

/-! ### Reading files and resolving paths -/

theorem Fs.readFile_of_file (fs : Fs) (p : Path) (c : List String)
    (h : Fs.lookup fs p = some (FsEntry.file c)) :
    Fs.readFile fs p = some c := by
  simp [Fs.readFile, Fs.resolve, h]

theorem Fs.is_file_of_file (fs : Fs) (p : Path) (c : List String)
    (h : Fs.lookup fs p = some (FsEntry.file c)) :
    Fs.is_file fs p = true := by
  simp [Fs.is_file, Fs.readFile_of_file fs p c h]

theorem variantFilename_length (v : String) :
    ("logdog." ++ (v ++ ".conf")).length = 12 + v.length := by
  rw [String.length_append, String.length_append]
  have h1 : ("logdog." : String).length = 7 := rfl
  have h2 : (".conf" : String).length = 5 := rfl
  rw [h1, h2]
  omega

theorem variantFilename_ne_dotdot (v : String) :
    "logdog." ++ (v ++ ".conf") ≠ ".." := by
  intro h
  have hl := congrArg String.length h
  rw [variantFilename_length] at hl
  have h2 : (".." : String).length = 2 := rfl
  rw [h2] at hl
  omega

theorem variantFilename_ne_dot (v : String) :
    "logdog." ++ (v ++ ".conf") ≠ "." := by
  intro h
  have hl := congrArg String.length h
  rw [variantFilename_length] at hl
  have h2 : ("." : String).length = 1 := rfl
  rw [h2] at hl
  omega

theorem variantFilename_ne_current (v : String) :
    "logdog." ++ (v ++ ".conf") ≠ "current" := by
  intro h
  have hl := congrArg String.length h
  rw [variantFilename_length] at hl
  have h2 : ("current" : String).length = 7 := rfl
  rw [h2] at hl
  omega

theorem variantFilename_inj (v w : String)
    (h : "logdog." ++ (v ++ ".conf") = "logdog." ++ (w ++ ".conf")) : v = w := by
  have hd := congrArg String.data h
  simp only [String.data_append] at hd
  have hd2 := List.append_cancel_left hd
  have hd3 := List.append_cancel_right hd2
  exact String.ext hd3

theorem resolveRel_confCurrent (f : String) (h2 : f ≠ "..") (h3 : f ≠ ".") :
    resolveRel ["conf", "current"] ["..", f] = ["conf", f] := by
  have c1 : ¬("conf" = "..") := by decide
  have c2 : ¬("conf" = ".") := by decide
  have c3 : ¬("current" = "..") := by decide
  have c4 : ¬("current" = ".") := by decide
  simp [resolveRel, normComps, c1, c2, c3, c4, h2, h3, List.dropLast]

/-! ### Behavior of `symlink_force` -/

theorem symlink_force_success (t l : Path) (fs : Fs)
    (hnd : Fs.lookup fs l ≠ some FsEntry.dir)
    (hpar : Fs.lookup (Fs.remove fs l) l.dropLast = some FsEntry.dir) :
    symlink_force t l fs =
      ⟨Fs.set (Fs.remove fs l) l (FsEntry.symlink t), none,
        [FsOp.removeFile l, FsOp.createSymlink t l]⟩ := by
  cases hl : Fs.lookup fs l with
  | none =>
      have hrm : Fs.remove fs l = fs := Fs.remove_of_lookup_none fs l hl
      rw [hrm] at hpar
      simp [symlink_force, remove_file, hl, sfCreate, symlink_create, hpar, hrm]
  | some e =>
      cases e with
      | file c =>
          simp [symlink_force, remove_file, hl, sfCreate, symlink_create,
            Fs.lookup_remove_self, hpar]
      | dir => exact absurd hl hnd
      | symlink t' =>
          simp [symlink_force, remove_file, hl, sfCreate, symlink_create,
            Fs.lookup_remove_self, hpar]

theorem symlink_force_create_fail (t l : Path) (fs : Fs)
    (hnd : Fs.lookup fs l ≠ some FsEntry.dir)
    (hpar : Fs.lookup (Fs.remove fs l) l.dropLast ≠ some FsEntry.dir) :
    symlink_force t l fs =
      ⟨Fs.remove fs l, some IOErrorKind.notFound,
        [FsOp.removeFile l, FsOp.createSymlink t l]⟩ := by
  cases hl : Fs.lookup fs l with
  | none =>
      have hrm : Fs.remove fs l = fs := Fs.remove_of_lookup_none fs l hl
      rw [hrm] at hpar
      simp [symlink_force, remove_file, hl, sfCreate, symlink_create, hpar, hrm]
  | some e =>
      cases e with
      | file c =>
          simp [symlink_force, remove_file, hl, sfCreate, symlink_create,
            Fs.lookup_remove_self, hpar]
      | dir => exact absurd hl hnd
      | symlink t' =>
          simp [symlink_force, remove_file, hl, sfCreate, symlink_create,
            Fs.lookup_remove_self, hpar]

theorem symlink_force_dir (t l : Path) (fs : Fs)
    (hl : Fs.lookup fs l = some FsEntry.dir) :
    symlink_force t l fs =
      ⟨fs, some IOErrorKind.isADirectory, [FsOp.removeFile l]⟩ := by
  simp [symlink_force, remove_file, hl]

theorem symlink_force_err_none (t l : Path) (fs : Fs)
    (h : (symlink_force t l fs).err = none) :
    Fs.lookup fs l ≠ some FsEntry.dir ∧
      Fs.lookup (Fs.remove fs l) l.dropLast = some FsEntry.dir ∧
      (symlink_force t l fs).fs =
        Fs.set (Fs.remove fs l) l (FsEntry.symlink t) := by
  by_cases hd : Fs.lookup fs l = some FsEntry.dir
  · rw [symlink_force_dir t l fs hd] at h
    simp at h
  · by_cases hp : Fs.lookup (Fs.remove fs l) l.dropLast = some FsEntry.dir
    · exact ⟨hd, hp, by rw [symlink_force_success t l fs hd hp]⟩
    · rw [symlink_force_create_fail t l fs hd hp] at h
      simp at h

theorem symlink_force_frame (t l : Path) (fs : Fs) (p : Path) (h : p ≠ l) :
    Fs.lookup (symlink_force t l fs).fs p = Fs.lookup fs p := by
  by_cases hd : Fs.lookup fs l = some FsEntry.dir
  · rw [symlink_force_dir t l fs hd]
  · by_cases hp : Fs.lookup (Fs.remove fs l) l.dropLast = some FsEntry.dir
    · rw [symlink_force_success t l fs hd hp]
      simp only []
      rw [Fs.lookup_set_ne _ _ _ _ h, Fs.lookup_remove_ne _ _ _ h]
    · rw [symlink_force_create_fail t l fs hd hp]
      simp only []
      rw [Fs.lookup_remove_ne _ _ _ h]

/-! ### Behavior of `symlink_variant` -/

theorem symlink_variant_noVariant (env : Env) (fs : Fs)
    (h : envVar env "VARIANT" = none) :
    symlink_variant env fs =
      ⟨fs, some 1, ["cargo:rerun-if-env-changed=VARIANT"],
        [Diag.missingVariant], []⟩ := by
  simp [symlink_variant, ENV_VARIANT, h]

theorem symlink_variant_noFile (env : Env) (fs : Fs) (v : String)
    (henv : envVar env "VARIANT" = some v)
    (hfile : Fs.is_file fs ["conf", "logdog." ++ (v ++ ".conf")] = false) :
    symlink_variant env fs =
      ⟨fs, some 1, ["cargo:rerun-if-env-changed=VARIANT"],
        [Diag.noConfFile v],
        [FsOp.statFile ["conf", "logdog." ++ (v ++ ".conf")]]⟩ := by
  simp [symlink_variant, ENV_VARIANT, henv, hfile]

theorem symlink_variant_success (env : Env) (fs : Fs) (v : String)
    (henv : envVar env "VARIANT" = some v)
    (hfile : Fs.is_file fs ["conf", "logdog." ++ (v ++ ".conf")] = true)
    (hnd : Fs.lookup fs ["conf", "current", "logdog.conf"] ≠ some FsEntry.dir)
    (hpar : Fs.lookup (Fs.remove fs ["conf", "current", "logdog.conf"])
        ["conf", "current"] = some FsEntry.dir) :
    symlink_variant env fs =
      ⟨Fs.set (Fs.remove fs ["conf", "current", "logdog.conf"])
          ["conf", "current", "logdog.conf"]
          (FsEntry.symlink ["..", "logdog." ++ (v ++ ".conf")]),
        none, ["cargo:rerun-if-env-changed=VARIANT"], [],
        [FsOp.statFile ["conf", "logdog." ++ (v ++ ".conf")],
          FsOp.removeFile ["conf", "current", "logdog.conf"],
          FsOp.createSymlink ["..", "logdog." ++ (v ++ ".conf")]
            ["conf", "current", "logdog.conf"]]⟩ := by
  have hforce := symlink_force_success ["..", "logdog." ++ (v ++ ".conf")]
    ["conf", "current", "logdog.conf"] fs hnd hpar
  simp [symlink_variant, ENV_VARIANT, henv, hfile, hforce]

theorem symlink_variant_forceFail (env : Env) (fs : Fs) (v : String)
    (e : IOErrorKind)
    (henv : envVar env "VARIANT" = some v)
    (hfile : Fs.is_file fs ["conf", "logdog." ++ (v ++ ".conf")] = true)
    (hforce : symlink_force ["..", "logdog." ++ (v ++ ".conf")]
        ["conf", "current", "logdog.conf"] fs =
      ⟨(symlink_force ["..", "logdog." ++ (v ++ ".conf")]
          ["conf", "current", "logdog.conf"] fs).fs, some e,
        (symlink_force ["..", "logdog." ++ (v ++ ".conf")]
          ["conf", "current", "logdog.conf"] fs).trace⟩) :
    symlink_variant env fs =
      ⟨(symlink_force ["..", "logdog." ++ (v ++ ".conf")]
          ["conf", "current", "logdog.conf"] fs).fs,
        some 1, ["cargo:rerun-if-env-changed=VARIANT"],
        [Diag.symlinkFailed ["conf", "current", "logdog.conf"]
          ["..", "logdog." ++ (v ++ ".conf")] e],
        FsOp.statFile ["conf", "logdog." ++ (v ++ ".conf")] ::
          (symlink_force ["..", "logdog." ++ (v ++ ".conf")]
            ["conf", "current", "logdog.conf"] fs).trace⟩ := by
  have herr : (symlink_force ["..", "logdog." ++ (v ++ ".conf")]
      ["conf", "current", "logdog.conf"] fs).err = some e := by
    rw [hforce]
  simp [symlink_variant, ENV_VARIANT, henv, hfile, herr]

theorem symlink_variant_frame (env : Env) (fs : Fs) (p : Path)
    (h : p ≠ ["conf", "current", "logdog.conf"]) :
    Fs.lookup (symlink_variant env fs).fs p = Fs.lookup fs p := by
  cases henv : envVar env ENV_VARIANT with
  | none => simp [symlink_variant, henv]
  | some v =>
      by_cases hfile :
          Fs.is_file fs ["conf", "logdog." ++ (v ++ ".conf")] = false
      · simp [symlink_variant, henv, hfile]
      · have hframe := symlink_force_frame ["..", "logdog." ++ (v ++ ".conf")]
          ["conf", "current", "logdog.conf"] fs p h
        cases herr : (symlink_force ["..", "logdog." ++ (v ++ ".conf")]
            ["conf", "current", "logdog.conf"] fs).err with
        | none => simp [symlink_variant, henv, hfile, herr, hframe]
        | some e => simp [symlink_variant, henv, hfile, herr, hframe]

theorem symlink_variant_exit_none (env : Env) (fs : Fs)
    (h : (symlink_variant env fs).exit = none) :
    ∃ v, envVar env "VARIANT" = some v ∧
      Fs.is_file fs ["conf", "logdog." ++ (v ++ ".conf")] = true ∧
      Fs.lookup fs ["conf", "current", "logdog.conf"] ≠ some FsEntry.dir ∧
      Fs.lookup (Fs.remove fs ["conf", "current", "logdog.conf"])
        ["conf", "current"] = some FsEntry.dir ∧
      (symlink_variant env fs).fs =
        Fs.set (Fs.remove fs ["conf", "current", "logdog.conf"])
          ["conf", "current", "logdog.conf"]
          (FsEntry.symlink ["..", "logdog." ++ (v ++ ".conf")]) := by
  cases henv : envVar env ENV_VARIANT with
  | none =>
      rw [symlink_variant_noVariant env fs henv] at h
      simp at h
  | some v =>
      by_cases hfile :
          Fs.is_file fs ["conf", "logdog." ++ (v ++ ".conf")] = false
      · rw [symlink_variant_noFile env fs v henv hfile] at h
        simp at h
      · have hfile' : Fs.is_file fs ["conf", "logdog." ++ (v ++ ".conf")] = true := by
          revert hfile
          cases Fs.is_file fs ["conf", "logdog." ++ (v ++ ".conf")] <;> simp
        have herr : (symlink_force ["..", "logdog." ++ (v ++ ".conf")]
            ["conf", "current", "logdog.conf"] fs).err = none := by
          by_contra hne
          cases herr2 : (symlink_force ["..", "logdog." ++ (v ++ ".conf")]
              ["conf", "current", "logdog.conf"] fs).err with
          | none => exact hne herr2
          | some e =>
              simp [symlink_variant, henv, hfile', herr2] at h
        obtain ⟨hnd, hpar, hfs⟩ := symlink_force_err_none
          ["..", "logdog." ++ (v ++ ".conf")]
          ["conf", "current", "logdog.conf"] fs herr
        refine ⟨v, henv, hfile', hnd, hpar, ?_⟩
        rw [symlink_variant_success env fs v henv hfile' hnd hpar]

/-! ### Substring machinery -/

theorem startsWithChars_self_append (l t : List Char) :
    startsWithChars l (l ++ t) = true := by
  induction l with
  | nil => rfl
  | cons a as ih => simp [startsWithChars, Bool.and_eq_true, ih]

theorem containsChars_append (l₁ l₂ l₃ : List Char) :
    containsChars l₂ (l₁ ++ (l₂ ++ l₃)) = true := by
  induction l₁ with
  | nil =>
      cases l₂ with
      | nil =>
          cases l₃ with
          | nil => rfl
          | cons b bs => simp [containsChars, startsWithChars]
      | cons a as =>
          have h1 : startsWithChars (a :: as) (a :: (as ++ l₃)) = true := by
            rw [← List.cons_append]
            exact startsWithChars_self_append _ _
          simp [containsChars, h1]
  | cons a l₁ ih => simp [containsChars, ih]

theorem strContains_data (hay needle : String)
    (h : strContains hay needle) :
    containsChars needle.data hay.data = true := by
  obtain ⟨pre, post, hsplit⟩ := h
  have hd := congrArg String.data hsplit
  rw [String.data_append, String.data_append] at hd
  rw [hd]
  exact containsChars_append pre.data needle.data post.data

/-! ### A full characterization of one successful `main` run -/

theorem main_fs_char (env : Env) (fs : Fs) (v : String)
    (c s tp : List String)
    (henv : envVar env "VARIANT" = some v)
    (hcat : Fs.lookup fs ["conf", "logdog." ++ (v ++ ".conf")] =
      some (FsEntry.file c))
    (hdir : Fs.lookup fs ["conf", "current"] = some FsEntry.dir)
    (hnd : Fs.lookup fs ["conf", "current", "logdog.conf"] ≠ some FsEntry.dir)
    (hsrc : Fs.lookup fs ["src", "main.rs"] = some (FsEntry.file s))
    (htpl : Fs.lookup fs ["README.tpl"] = some (FsEntry.file tp))
    (hmd : Fs.lookup fs ["README.md"] ≠ some FsEntry.dir) :
    (main env fs).exit = none ∧
    Fs.lookup (main env fs).fs ["conf", "current", "logdog.conf"] =
      some (FsEntry.symlink ["..", "logdog." ++ (v ++ ".conf")]) ∧
    (envVar env "SKIP_README" = none →
      Fs.lookup (main env fs).fs ["README.md"] =
        some (FsEntry.file
          (cargo_readme_generate "logdog" s tp true false false true))) ∧
    (envVar env "SKIP_README" ≠ none →
      Fs.lookup (main env fs).fs ["README.md"] =
        Fs.lookup fs ["README.md"]) ∧
    (∀ p, p ≠ ["conf", "current", "logdog.conf"] → p ≠ ["README.md"] →
      Fs.lookup (main env fs).fs p = Fs.lookup fs p) := by
  have hfile := Fs.is_file_of_file fs ["conf", "logdog." ++ (v ++ ".conf")] c hcat
  have hpar : Fs.lookup (Fs.remove fs ["conf", "current", "logdog.conf"])
      ["conf", "current"] = some FsEntry.dir := by
    rw [Fs.lookup_remove_ne _ _ _ (by decide)]
    exact hdir
  have hrun1 := symlink_variant_success env fs v henv hfile hnd hpar
  have hAlink : Fs.lookup
      (Fs.set (Fs.remove fs ["conf", "current", "logdog.conf"])
        ["conf", "current", "logdog.conf"]
        (FsEntry.symlink ["..", "logdog." ++ (v ++ ".conf")]))
      ["conf", "current", "logdog.conf"] =
      some (FsEntry.symlink ["..", "logdog." ++ (v ++ ".conf")]) :=
    Fs.lookup_set_self _ _ _
  have hAframe : ∀ p, p ≠ ["conf", "current", "logdog.conf"] →
      Fs.lookup (Fs.set (Fs.remove fs ["conf", "current", "logdog.conf"])
        ["conf", "current", "logdog.conf"]
        (FsEntry.symlink ["..", "logdog." ++ (v ++ ".conf")])) p =
      Fs.lookup fs p := by
    intro p hp
    rw [Fs.lookup_set_ne _ _ _ _ hp, Fs.lookup_remove_ne _ _ _ hp]
  cases hskip : envVar env "SKIP_README" with
  | some sv =>
      have hgen : generate_readme env
          (Fs.set (Fs.remove fs ["conf", "current", "logdog.conf"])
            ["conf", "current", "logdog.conf"]
            (FsEntry.symlink ["..", "logdog." ++ (v ++ ".conf")])) =
          ⟨Fs.set (Fs.remove fs ["conf", "current", "logdog.conf"])
            ["conf", "current", "logdog.conf"]
            (FsEntry.symlink ["..", "logdog." ++ (v ++ ".conf")]),
            none, [], [], []⟩ := by
        simp [generate_readme, hskip]
      have hmfs : (main env fs).fs =
          Fs.set (Fs.remove fs ["conf", "current", "logdog.conf"])
            ["conf", "current", "logdog.conf"]
            (FsEntry.symlink ["..", "logdog." ++ (v ++ ".conf")]) := by
        simp [main, hrun1, hgen]
      have hmex : (main env fs).exit = none := by
        simp [main, hrun1, hgen]
      refine ⟨hmex, ?_, ?_, ?_, ?_⟩
      · rw [hmfs]
        exact hAlink
      · intro h
        simp at h
      · intro _
        rw [hmfs]
        exact hAframe _ (by decide)
      · intro p h1 _
        rw [hmfs]
        exact hAframe p h1
  | none =>
      have hsrcA : Fs.lookup
          (Fs.set (Fs.remove fs ["conf", "current", "logdog.conf"])
            ["conf", "current", "logdog.conf"]
            (FsEntry.symlink ["..", "logdog." ++ (v ++ ".conf")]))
          ["src", "main.rs"] = some (FsEntry.file s) := by
        rw [hAframe _ (by decide)]
        exact hsrc
      have htplA : Fs.lookup
          (Fs.set (Fs.remove fs ["conf", "current", "logdog.conf"])
            ["conf", "current", "logdog.conf"]
            (FsEntry.symlink ["..", "logdog." ++ (v ++ ".conf")]))
          ["README.tpl"] = some (FsEntry.file tp) := by
        rw [hAframe _ (by decide)]
        exact htpl
      have hmdA : Fs.lookup
          (Fs.set (Fs.remove fs ["conf", "current", "logdog.conf"])
            ["conf", "current", "logdog.conf"]
            (FsEntry.symlink ["..", "logdog." ++ (v ++ ".conf")]))
          ["README.md"] ≠ some FsEntry.dir := by
        rw [hAframe _ (by decide)]
        exact hmd
      have hsA := Fs.readFile_of_file _ _ _ hsrcA
      have htA := Fs.readFile_of_file _ _ _ htplA
      have hgen : generate_readme env
          (Fs.set (Fs.remove fs ["conf", "current", "logdog.conf"])
            ["conf", "current", "logdog.conf"]
            (FsEntry.symlink ["..", "logdog." ++ (v ++ ".conf")])) =
          ⟨Fs.set (Fs.set (Fs.remove fs ["conf", "current", "logdog.conf"])
              ["conf", "current", "logdog.conf"]
              (FsEntry.symlink ["..", "logdog." ++ (v ++ ".conf")]))
            ["README.md"]
            (FsEntry.file
              (cargo_readme_generate "logdog" s tp true false false true)),
            none, [], [],
            [FsOp.openRead ["src", "main.rs"], FsOp.openRead ["README.tpl"],
              FsOp.createWrite ["README.md"]]⟩ := by
        simp [generate_readme, hskip, hsA, htA, hmdA]
      have hmfs : (main env fs).fs =
          Fs.set (Fs.set (Fs.remove fs ["conf", "current", "logdog.conf"])
              ["conf", "current", "logdog.conf"]
              (FsEntry.symlink ["..", "logdog." ++ (v ++ ".conf")]))
            ["README.md"]
            (FsEntry.file
              (cargo_readme_generate "logdog" s tp true false false true)) := by
        simp [main, hrun1, hgen]
      have hmex : (main env fs).exit = none := by
        simp [main, hrun1, hgen]
      refine ⟨hmex, ?_, ?_, ?_, ?_⟩
      · rw [hmfs, Fs.lookup_set_ne _ _ _ _ (by decide)]
        exact hAlink
      · intro _
        rw [hmfs]
        exact Fs.lookup_set_self _ _ _
      · intro h
        simp at h
      · intro p h1 h2
        rw [hmfs, Fs.lookup_set_ne _ _ _ _ h2]
        exact hAframe p h1

/-! ### Path inequality helpers -/

theorem confPath_ne_link (f : String) :
    (["conf", f] : Path) ≠ ["conf", "current", "logdog.conf"] := by
  intro h
  have := congrArg List.length h
  simp at this

theorem confPath_ne_readme (f : String) :
    (["conf", f] : Path) ≠ ["README.md"] := by
  intro h
  have := congrArg List.length h
  simp at this

/-! ### The claims -/

/-- Claim C5: whenever the `SKIP_README` environment variable is present —
whatever its value, the empty string included — `generate_readme` performs
no file open, create or write (its operation trace is empty), leaves the
filesystem unchanged, and returns successfully with no output. -/
theorem c5_skip_readme (env : Env) (fs : Fs)
    (h : (envVar env "SKIP_README").isSome = true) :
    generate_readme env fs = ⟨fs, none, [], [], []⟩ := by
  simp [generate_readme, h]

/-- Witness for C5 at `SKIP_README` set to the empty string. -/
theorem c5_witness :
    (envVar [("SKIP_README", "")] "SKIP_README").isSome = true ∧
      generate_readme [("SKIP_README", "")] [] = ⟨[], none, [], [], []⟩ :=
  ⟨by decide, c5_skip_readme [("SKIP_README", "")] [] (by decide)⟩

/-- Claim C10: for every environment and filesystem, `symlink_variant`
changes at most the entry at `conf/current/logdog.conf`: every other
path — every catalog file `conf/logdog.*.conf` included — looks up to
the same entry afterwards. -/
theorem c10_resolver_frame (env : Env) (fs : Fs) (p : Path)
    (h : p ≠ ["conf", "current", "logdog.conf"]) :
    Fs.lookup (symlink_variant env fs).fs p = Fs.lookup fs p :=
  symlink_variant_frame env fs p h

/-- Witness for C10 at a catalog-file path. -/
theorem c10_witness :
    (["conf", "logdog.x.conf"] : Path) ≠ ["conf", "current", "logdog.conf"] ∧
      Fs.lookup
        (symlink_variant [("VARIANT", "x")]
          [(["conf", "logdog.x.conf"], FsEntry.file ["cmd"])]).fs
        ["conf", "logdog.x.conf"] =
      Fs.lookup [(["conf", "logdog.x.conf"], FsEntry.file ["cmd"])]
        ["conf", "logdog.x.conf"] :=
  ⟨by decide,
    c10_resolver_frame [("VARIANT", "x")]
      [(["conf", "logdog.x.conf"], FsEntry.file ["cmd"])]
      ["conf", "logdog.x.conf"] (by decide)⟩

/-- Claim C8: `main` runs the resolver first: when `symlink_variant`
exits, `main`'s outcome is exactly the resolver's (so `generate_readme`
contributes nothing — no operations, no diagnostics); when the resolver
returns successfully, `main`'s trace is the resolver's trace followed by
the generator's, so every resolver operation precedes every generator
operation. -/
theorem c8_resolver_first (env : Env) (fs : Fs) :
    ((symlink_variant env fs).exit ≠ none →
      main env fs = symlink_variant env fs) ∧
    ((symlink_variant env fs).exit = none →
      (main env fs).trace =
        (symlink_variant env fs).trace ++
          (generate_readme env (symlink_variant env fs).fs).trace ∧
      (main env fs).stderr =
        (symlink_variant env fs).stderr ++
          (generate_readme env (symlink_variant env fs).fs).stderr) := by
  constructor
  · intro h
    cases hexit : (symlink_variant env fs).exit with
    | none => exact absurd hexit h
    | some c => simp [main, hexit]
  · intro h
    simp [main, h]

/-- Witness for C8: a run where the resolver exits (no `VARIANT`), and a
run where it succeeds. -/
theorem c8_witness :
    ((symlink_variant [] []).exit ≠ none ∧ main [] [] = symlink_variant [] []) ∧
    ((symlink_variant [("VARIANT", "x")]
        [(["conf", "logdog.x.conf"], FsEntry.file []),
          (["conf", "current"], FsEntry.dir)]).exit = none ∧
      (main [("VARIANT", "x")]
          [(["conf", "logdog.x.conf"], FsEntry.file []),
            (["conf", "current"], FsEntry.dir)]).trace =
        (symlink_variant [("VARIANT", "x")]
            [(["conf", "logdog.x.conf"], FsEntry.file []),
              (["conf", "current"], FsEntry.dir)]).trace ++
          (generate_readme [("VARIANT", "x")]
              (symlink_variant [("VARIANT", "x")]
                [(["conf", "logdog.x.conf"], FsEntry.file []),
                  (["conf", "current"], FsEntry.dir)]).fs).trace ∧
      (main [("VARIANT", "x")]
          [(["conf", "logdog.x.conf"], FsEntry.file []),
            (["conf", "current"], FsEntry.dir)]).stderr =
        (symlink_variant [("VARIANT", "x")]
            [(["conf", "logdog.x.conf"], FsEntry.file []),
              (["conf", "current"], FsEntry.dir)]).stderr ++
          (generate_readme [("VARIANT", "x")]
              (symlink_variant [("VARIANT", "x")]
                [(["conf", "logdog.x.conf"], FsEntry.file []),
                  (["conf", "current"], FsEntry.dir)]).fs).stderr) :=
  ⟨⟨by decide, (c8_resolver_first [] []).1 (by decide)⟩,
    ⟨by decide,
      (c8_resolver_first [("VARIANT", "x")]
        [(["conf", "logdog.x.conf"], FsEntry.file []),
          (["conf", "current"], FsEntry.dir)]).2 (by decide)⟩⟩

/-- Counterexample to claim C1 as stated: with `VARIANT` set to the
empty string and a file `conf/logdog..conf` present, `symlink_variant`
does not abort — it returns successfully and modifies the filesystem
(creating the link), because `env::var` only fails for an unset
variable, not an empty one. -/
theorem c1_counterexample :
    (symlink_variant [("VARIANT", "")]
        [(["conf"], FsEntry.dir), (["conf", "logdog..conf"], FsEntry.file []),
          (["conf", "current"], FsEntry.dir)]).exit = none ∧
    (symlink_variant [("VARIANT", "")]
        [(["conf"], FsEntry.dir), (["conf", "logdog..conf"], FsEntry.file []),
          (["conf", "current"], FsEntry.dir)]).fs ≠
      [(["conf"], FsEntry.dir), (["conf", "logdog..conf"], FsEntry.file []),
        (["conf", "current"], FsEntry.dir)] := by
  constructor
  · decide
  · decide

/-- Claim C1, amended: when `VARIANT` is unset, `symlink_variant` aborts
with exit status 1 and the missing-identifier diagnostic before touching
the filesystem (unchanged filesystem, empty operation trace). When
`VARIANT` is set to the empty string it is used as an ordinary variant
identifier: if `conf/logdog..conf` is not a file the run aborts with the
missing-catalog diagnostic, again without touching the filesystem. -/
theorem c1_missing_variant (env : Env) (fs : Fs) :
    (envVar env "VARIANT" = none →
      symlink_variant env fs =
        ⟨fs, some 1, ["cargo:rerun-if-env-changed=VARIANT"],
          [Diag.missingVariant], []⟩) ∧
    (envVar env "VARIANT" = some "" →
      Fs.is_file fs ["conf", "logdog..conf"] = false →
      symlink_variant env fs =
        ⟨fs, some 1, ["cargo:rerun-if-env-changed=VARIANT"],
          [Diag.noConfFile ""], [FsOp.statFile ["conf", "logdog..conf"]]⟩) := by
  constructor
  · intro h
    exact symlink_variant_noVariant env fs h
  · intro h hf
    exact symlink_variant_noFile env fs "" h hf

/-- Witness for C1 at an empty environment and at `VARIANT=""`. -/
theorem c1_witness :
    (envVar [] "VARIANT" = none ∧
      symlink_variant [] [] =
        ⟨[], some 1, ["cargo:rerun-if-env-changed=VARIANT"],
          [Diag.missingVariant], []⟩) ∧
    (envVar [("VARIANT", "")] "VARIANT" = some "" ∧
      Fs.is_file [] ["conf", "logdog..conf"] = false ∧
      symlink_variant [("VARIANT", "")] [] =
        ⟨[], some 1, ["cargo:rerun-if-env-changed=VARIANT"],
          [Diag.noConfFile ""], [FsOp.statFile ["conf", "logdog..conf"]]⟩) :=
  ⟨⟨by decide, (c1_missing_variant [] []).1 (by decide)⟩,
    ⟨by decide, by decide,
      (c1_missing_variant [("VARIANT", "")] []).2 (by decide) (by decide)⟩⟩

/-- Counterexample to claim C4 as stated: for `V = "nonexistent"` with no
catalog file, the resolver does abort with exit status 1, but its
diagnostic does not contain the expected missing filename
`logdog.nonexistent.conf` — the `eprintln!` interpolates the raw variant
value, not `variant_filename`. -/
theorem c4_counterexample :
    (symlink_variant [("VARIANT", "nonexistent")] []).exit = some 1 ∧
    (symlink_variant [("VARIANT", "nonexistent")] []).stderr =
      [Diag.noConfFile "nonexistent"] ∧
    ¬strContains (Diag.noConfFile "nonexistent").message
      "logdog.nonexistent.conf" := by
  refine ⟨by decide, by decide, ?_⟩
  intro h
  have hc := strContains_data _ _ h
  revert hc
  decide

/-- Claim C4, amended: for every variant `V` with no catalog file, the
resolver aborts with exit status 1 and a diagnostic on the error stream
that names the variant identifier `V` and the catalog directory `conf`
(but not the full expected filename `logdog.V.conf`), and that
diagnostic differs from the missing-identifier diagnostic. -/
theorem c4_missing_catalog (env : Env) (fs : Fs) (v : String)
    (henv : envVar env "VARIANT" = some v)
    (hfile : Fs.is_file fs ["conf", "logdog." ++ (v ++ ".conf")] = false) :
    symlink_variant env fs =
      ⟨fs, some 1, ["cargo:rerun-if-env-changed=VARIANT"],
        [Diag.noConfFile v],
        [FsOp.statFile ["conf", "logdog." ++ (v ++ ".conf")]]⟩ ∧
    strContains (Diag.noConfFile v).message v ∧
    strContains (Diag.noConfFile v).message "conf" ∧
    (Diag.noConfFile v).message ≠ Diag.missingVariant.message := by
  refine ⟨symlink_variant_noFile env fs v henv hfile, ?_, ?_, ?_⟩
  · exact ⟨"There is no file named '",
      "' in the 'conf' directory for the current variant (given by the 'VARIANT' environment variable) Each variant must have a file representing the variant-specific commands that logdog will run.",
      rfl⟩
  · refine ⟨"There is no file named '" ++ (v ++ "' in the '"),
      "' directory for the current variant (given by the 'VARIANT' environment variable) Each variant must have a file representing the variant-specific commands that logdog will run.",
      ?_⟩
    rw [String.append_assoc, String.append_assoc]
    rfl
  · intro h
    have hT : (Diag.noConfFile v).message.data.head? = some 'T' := by
      simp only [Diag.message]
      rw [String.data_append]
      rfl
    rw [h] at hT
    have hF : Diag.missingVariant.message.data.head? = some 'F' := rfl
    rw [hF] at hT
    simp at hT

/-- Witness for C4 at `V = "nonexistent"`. -/
theorem c4_witness :
    (envVar [("VARIANT", "nonexistent")] "VARIANT" = some "nonexistent" ∧
      Fs.is_file [] ["conf", "logdog." ++ ("nonexistent" ++ ".conf")] = false) ∧
    (symlink_variant [("VARIANT", "nonexistent")] [] =
      ⟨[], some 1, ["cargo:rerun-if-env-changed=VARIANT"],
        [Diag.noConfFile "nonexistent"],
        [FsOp.statFile
          ["conf", "logdog." ++ ("nonexistent" ++ ".conf")]]⟩ ∧
      strContains (Diag.noConfFile "nonexistent").message "nonexistent" ∧
      strContains (Diag.noConfFile "nonexistent").message "conf" ∧
      (Diag.noConfFile "nonexistent").message ≠
        Diag.missingVariant.message) :=
  ⟨⟨by decide, by decide⟩,
    c4_missing_catalog [("VARIANT", "nonexistent")] [] "nonexistent"
      (by decide) (by decide)⟩

/-- Claim C2: for every variant identifier `V` (with no path separator)
whose catalog file `conf/logdog.V.conf` is a regular file — the
repository tree supplying the `conf/current` directory, with no
directory squatting on the link path — `symlink_variant` returns
successfully and leaves at `conf/current/logdog.conf` a symbolic link
whose stored target is the relative path `../logdog.V.conf`, which after
one hop resolves to exactly `conf/logdog.V.conf`, where the catalog file
still sits untouched. -/
theorem c2_link_created (env : Env) (fs : Fs) (v : String) (c : List String)
    (_hsl : '/' ∉ v.data)
    (henv : envVar env "VARIANT" = some v)
    (hcat : Fs.lookup fs ["conf", "logdog." ++ (v ++ ".conf")] =
      some (FsEntry.file c))
    (hdir : Fs.lookup fs ["conf", "current"] = some FsEntry.dir)
    (hnd : Fs.lookup fs ["conf", "current", "logdog.conf"] ≠ some FsEntry.dir) :
    (symlink_variant env fs).exit = none ∧
    Fs.lookup (symlink_variant env fs).fs ["conf", "current", "logdog.conf"] =
      some (FsEntry.symlink ["..", "logdog." ++ (v ++ ".conf")]) ∧
    followOneHop (symlink_variant env fs).fs ["conf", "current", "logdog.conf"] =
      some ["conf", "logdog." ++ (v ++ ".conf")] ∧
    Fs.lookup (symlink_variant env fs).fs ["conf", "logdog." ++ (v ++ ".conf")] =
      some (FsEntry.file c) := by
  have hfile := Fs.is_file_of_file fs ["conf", "logdog." ++ (v ++ ".conf")] c hcat
  have hpar : Fs.lookup (Fs.remove fs ["conf", "current", "logdog.conf"])
      ["conf", "current"] = some FsEntry.dir := by
    rw [Fs.lookup_remove_ne _ _ _ (by decide)]
    exact hdir
  have hrun := symlink_variant_success env fs v henv hfile hnd hpar
  rw [hrun]
  refine ⟨rfl, Fs.lookup_set_self _ _ _, ?_, ?_⟩
  · have hls := Fs.lookup_set_self
      (Fs.remove fs ["conf", "current", "logdog.conf"])
      ["conf", "current", "logdog.conf"]
      (FsEntry.symlink ["..", "logdog." ++ (v ++ ".conf")])
    simp only [followOneHop, hls]
    have hdl : (["conf", "current", "logdog.conf"] : Path).dropLast =
        ["conf", "current"] := rfl
    rw [hdl, resolveRel_confCurrent _ (variantFilename_ne_dotdot v)
      (variantFilename_ne_dot v)]
  · rw [Fs.lookup_set_ne _ _ _ _ (confPath_ne_link _),
      Fs.lookup_remove_ne _ _ _ (confPath_ne_link _)]
    exact hcat

/-- Witness for C2 at the variant `aws-k8s-1.17` of the script's doc
comment. -/
theorem c2_witness :
    ('/' ∉ ("aws-k8s-1.17" : String).data ∧
      envVar [("VARIANT", "aws-k8s-1.17")] "VARIANT" = some "aws-k8s-1.17" ∧
      Fs.lookup
        [(["conf"], FsEntry.dir),
          (["conf", "logdog.aws-k8s-1.17.conf"], FsEntry.file ["cmd"]),
          (["conf", "current"], FsEntry.dir)]
        ["conf", "logdog." ++ ("aws-k8s-1.17" ++ ".conf")] =
          some (FsEntry.file ["cmd"]) ∧
      Fs.lookup
        [(["conf"], FsEntry.dir),
          (["conf", "logdog.aws-k8s-1.17.conf"], FsEntry.file ["cmd"]),
          (["conf", "current"], FsEntry.dir)] ["conf", "current"] =
          some FsEntry.dir ∧
      Fs.lookup
        [(["conf"], FsEntry.dir),
          (["conf", "logdog.aws-k8s-1.17.conf"], FsEntry.file ["cmd"]),
          (["conf", "current"], FsEntry.dir)]
        ["conf", "current", "logdog.conf"] ≠ some FsEntry.dir) ∧
    ((symlink_variant [("VARIANT", "aws-k8s-1.17")]
        [(["conf"], FsEntry.dir),
          (["conf", "logdog.aws-k8s-1.17.conf"], FsEntry.file ["cmd"]),
          (["conf", "current"], FsEntry.dir)]).exit = none ∧
      Fs.lookup (symlink_variant [("VARIANT", "aws-k8s-1.17")]
          [(["conf"], FsEntry.dir),
            (["conf", "logdog.aws-k8s-1.17.conf"], FsEntry.file ["cmd"]),
            (["conf", "current"], FsEntry.dir)]).fs
          ["conf", "current", "logdog.conf"] =
        some (FsEntry.symlink ["..", "logdog." ++ ("aws-k8s-1.17" ++ ".conf")]) ∧
      followOneHop (symlink_variant [("VARIANT", "aws-k8s-1.17")]
          [(["conf"], FsEntry.dir),
            (["conf", "logdog.aws-k8s-1.17.conf"], FsEntry.file ["cmd"]),
            (["conf", "current"], FsEntry.dir)]).fs
          ["conf", "current", "logdog.conf"] =
        some ["conf", "logdog." ++ ("aws-k8s-1.17" ++ ".conf")] ∧
      Fs.lookup (symlink_variant [("VARIANT", "aws-k8s-1.17")]
          [(["conf"], FsEntry.dir),
            (["conf", "logdog.aws-k8s-1.17.conf"], FsEntry.file ["cmd"]),
            (["conf", "current"], FsEntry.dir)]).fs
          ["conf", "logdog." ++ ("aws-k8s-1.17" ++ ".conf")] =
        some (FsEntry.file ["cmd"])) :=
  ⟨⟨by decide, by decide, by decide, by decide, by decide⟩,
    c2_link_created [("VARIANT", "aws-k8s-1.17")]
      [(["conf"], FsEntry.dir),
        (["conf", "logdog.aws-k8s-1.17.conf"], FsEntry.file ["cmd"]),
        (["conf", "current"], FsEntry.dir)]
      "aws-k8s-1.17" ["cmd"] (by decide) (by decide) (by decide) (by decide)
      (by decide)⟩

/-- Claim C9: link replacement is not atomic on failure. Whenever an
entry (file or link) sits at `conf/current/logdog.conf`, `symlink_force`
removes it successfully, and the subsequent symlink creation fails, the
process aborts with exit status 1 and the final filesystem has no entry
at the link path: the previous link is gone and is not restored. -/
theorem c9_no_restore (env : Env) (fs : Fs) (v : String) (e0 : FsEntry)
    (henv : envVar env "VARIANT" = some v)
    (hfile : Fs.is_file fs ["conf", "logdog." ++ (v ++ ".conf")] = true)
    (hexists : Fs.lookup fs ["conf", "current", "logdog.conf"] = some e0)
    (hnd : e0 ≠ FsEntry.dir)
    (hfail : Fs.lookup (Fs.remove fs ["conf", "current", "logdog.conf"])
        ["conf", "current"] ≠ some FsEntry.dir) :
    (symlink_variant env fs).exit = some 1 ∧
    (symlink_variant env fs).fs =
      Fs.remove fs ["conf", "current", "logdog.conf"] ∧
    Fs.lookup (symlink_variant env fs).fs
      ["conf", "current", "logdog.conf"] = none := by
  have hnd' : Fs.lookup fs ["conf", "current", "logdog.conf"] ≠
      some FsEntry.dir := by
    rw [hexists]
    intro hc
    exact hnd (Option.some.inj hc)
  have hforce := symlink_force_create_fail
    ["..", "logdog." ++ (v ++ ".conf")] ["conf", "current", "logdog.conf"]
    fs hnd' hfail
  have herr : (symlink_force ["..", "logdog." ++ (v ++ ".conf")]
      ["conf", "current", "logdog.conf"] fs).err =
      some IOErrorKind.notFound := by
    rw [hforce]
  have hfs : (symlink_force ["..", "logdog." ++ (v ++ ".conf")]
      ["conf", "current", "logdog.conf"] fs).fs =
      Fs.remove fs ["conf", "current", "logdog.conf"] := by
    rw [hforce]
  refine ⟨?_, ?_, ?_⟩
  · simp [symlink_variant, ENV_VARIANT, henv, hfile, herr]
  · simp [symlink_variant, ENV_VARIANT, henv, hfile, herr, hfs]
  · simp [symlink_variant, ENV_VARIANT, henv, hfile, herr, hfs,
      Fs.lookup_remove_self]

/-- Witness for C9: the link path holds a file but its parent is not a
directory, so the removal succeeds and the creation fails. -/
theorem c9_witness :
    (envVar [("VARIANT", "x")] "VARIANT" = some "x" ∧
      Fs.is_file
        [(["conf", "current", "logdog.conf"], FsEntry.file ["old"]),
          (["conf", "logdog.x.conf"], FsEntry.file [])]
        ["conf", "logdog." ++ ("x" ++ ".conf")] = true ∧
      Fs.lookup
        [(["conf", "current", "logdog.conf"], FsEntry.file ["old"]),
          (["conf", "logdog.x.conf"], FsEntry.file [])]
        ["conf", "current", "logdog.conf"] = some (FsEntry.file ["old"]) ∧
      FsEntry.file ["old"] ≠ FsEntry.dir) ∧
    ((symlink_variant [("VARIANT", "x")]
        [(["conf", "current", "logdog.conf"], FsEntry.file ["old"]),
          (["conf", "logdog.x.conf"], FsEntry.file [])]).exit = some 1 ∧
      (symlink_variant [("VARIANT", "x")]
          [(["conf", "current", "logdog.conf"], FsEntry.file ["old"]),
            (["conf", "logdog.x.conf"], FsEntry.file [])]).fs =
        Fs.remove
          [(["conf", "current", "logdog.conf"], FsEntry.file ["old"]),
            (["conf", "logdog.x.conf"], FsEntry.file [])]
          ["conf", "current", "logdog.conf"] ∧
      Fs.lookup (symlink_variant [("VARIANT", "x")]
          [(["conf", "current", "logdog.conf"], FsEntry.file ["old"]),
            (["conf", "logdog.x.conf"], FsEntry.file [])]).fs
        ["conf", "current", "logdog.conf"] = none) :=
  ⟨⟨by decide, by decide, by decide, by decide⟩,
    c9_no_restore [("VARIANT", "x")]
      [(["conf", "current", "logdog.conf"], FsEntry.file ["old"]),
        (["conf", "logdog.x.conf"], FsEntry.file [])]
      "x" (FsEntry.file ["old"]) (by decide) (by decide) (by decide)
      (by decide) (by decide)⟩

/-- Counterexample to claim C7 as stated: with `SKIP_README` unset and
`src/main.rs` missing, `generate_readme` does abort (exit status 101,
`README.md` untouched), but the panic diagnostic does not include which
file is missing: the `unwrap` panic message carries only the underlying
I/O error, and `"src/main.rs"` does not occur in it. -/
theorem c7_counterexample :
    (generate_readme [] []).exit = some 101 ∧
    (generate_readme [] []).fs = [] ∧
    (generate_readme [] []).stderr =
      [Diag.panicked PanicSite.openSource IOErrorKind.notFound] ∧
    ¬strContains
      (Diag.panicked PanicSite.openSource IOErrorKind.notFound).message
      "src/main.rs" := by
  refine ⟨by decide, by decide, by decide, ?_⟩
  intro h
  have hc := strContains_data _ _ h
  revert hc
  decide

/-- Claim C7, amended: when `SKIP_README` is unset and `src/main.rs`
(or, with the source readable, `README.tpl`) cannot be opened,
`generate_readme` aborts the build with the non-zero exit status 101 and
a panic diagnostic carrying the underlying I/O error — which does not
name the missing file — and the filesystem is untouched, so `README.md`
is not written. -/
theorem c7_missing_input_panics (env : Env) (fs : Fs) :
    (envVar env "SKIP_README" = none →
      Fs.readFile fs ["src", "main.rs"] = none →
      generate_readme env fs =
        ⟨fs, some 101, [],
          [Diag.panicked PanicSite.openSource IOErrorKind.notFound],
          [FsOp.openRead ["src", "main.rs"]]⟩) ∧
    (∀ s, envVar env "SKIP_README" = none →
      Fs.readFile fs ["src", "main.rs"] = some s →
      Fs.readFile fs ["README.tpl"] = none →
      generate_readme env fs =
        ⟨fs, some 101, [],
          [Diag.panicked PanicSite.openTemplate IOErrorKind.notFound],
          [FsOp.openRead ["src", "main.rs"],
            FsOp.openRead ["README.tpl"]]⟩) ∧
    ¬strContains
      (Diag.panicked PanicSite.openSource IOErrorKind.notFound).message
      "src/main.rs" ∧
    ¬strContains
      (Diag.panicked PanicSite.openTemplate IOErrorKind.notFound).message
      "README.tpl" := by
  refine ⟨?_, ?_, ?_, ?_⟩
  · intro hskip hsrc
    simp [generate_readme, hskip, hsrc]
  · intro s hskip hsrc htpl
    simp [generate_readme, hskip, hsrc, htpl]
  · intro h
    have hc := strContains_data _ _ h
    revert hc
    decide
  · intro h
    have hc := strContains_data _ _ h
    revert hc
    decide

/-- Witness for C7: missing source, and missing template with the source
present. -/
theorem c7_witness :
    (envVar [] "SKIP_README" = none ∧
      Fs.readFile [] ["src", "main.rs"] = none ∧
      generate_readme [] [] =
        ⟨[], some 101, [],
          [Diag.panicked PanicSite.openSource IOErrorKind.notFound],
          [FsOp.openRead ["src", "main.rs"]]⟩) ∧
    (envVar [] "SKIP_README" = none ∧
      Fs.readFile [(["src", "main.rs"], FsEntry.file ["fn"])]
        ["src", "main.rs"] = some ["fn"] ∧
      Fs.readFile [(["src", "main.rs"], FsEntry.file ["fn"])]
        ["README.tpl"] = none ∧
      generate_readme [] [(["src", "main.rs"], FsEntry.file ["fn"])] =
        ⟨[(["src", "main.rs"], FsEntry.file ["fn"])], some 101, [],
          [Diag.panicked PanicSite.openTemplate IOErrorKind.notFound],
          [FsOp.openRead ["src", "main.rs"],
            FsOp.openRead ["README.tpl"]]⟩) :=
  ⟨⟨by decide, by decide,
      (c7_missing_input_panics [] []).1 (by decide) (by decide)⟩,
    ⟨by decide, by decide, by decide,
      (c7_missing_input_panics [] [(["src", "main.rs"], FsEntry.file ["fn"])]).2.1
        ["fn"] (by decide) (by decide) (by decide)⟩⟩

/-- Claim C6: with `SKIP_README` unset and both `src/main.rs` and
`README.tpl` readable, `generate_readme` overwrites `README.md` with the
template's structure (every non-placeholder template line is kept) into
which the documentation extracted from `src/main.rs` is inserted at the
placeholder, preceded by a title and with no badge or license lines
added, and with extracted headings re-indented by one level: a level-1
heading `# t` of the extracted text appears as the level-2 heading
`## t` in the output. -/
theorem c6_readme_generation (env : Env) (fs : Fs) (S T : List String)
    (hskip : envVar env "SKIP_README" = none)
    (hsrc : Fs.readFile fs ["src", "main.rs"] = some S)
    (htpl : Fs.readFile fs ["README.tpl"] = some T)
    (hmd : Fs.lookup fs ["README.md"] ≠ some FsEntry.dir) :
    generate_readme env fs =
      ⟨Fs.set fs ["README.md"]
          (FsEntry.file (cargo_readme_generate "logdog" S T true false false true)),
        none, [], [],
        [FsOp.openRead ["src", "main.rs"], FsOp.openRead ["README.tpl"],
          FsOp.createWrite ["README.md"]]⟩ ∧
    (∀ l ∈ T, l ≠ readmePlaceholder →
      l ∈ cargo_readme_generate "logdog" S T true false false true) ∧
    (readmePlaceholder ∈ T →
      "# logdog" ∈ cargo_readme_generate "logdog" S T true false false true) ∧
    (readmePlaceholder ∈ T → ∀ t, ("# " ++ t) ∈ S.filterMap extractDocLine →
      ("## " ++ t) ∈ cargo_readme_generate "logdog" S T true false false true) := by
  refine ⟨?_, ?_, ?_, ?_⟩
  · simp [generate_readme, hskip, hsrc, htpl, hmd]
  · intro l hl hne
    simp only [cargo_readme_generate]
    refine List.mem_flatMap.mpr ⟨l, hl, ?_⟩
    simp [hne]
  · intro hp
    simp only [cargo_readme_generate]
    refine List.mem_flatMap.mpr ⟨readmePlaceholder, hp, ?_⟩
    simp
  · intro hp t ht
    have hdata : ("# " ++ t).data = '#' :: (' ' :: t.data) := by
      rw [String.data_append]
      rfl
    have h1 : indentHeading ("# " ++ t) = "#" ++ ("# " ++ t) := by
      simp [indentHeading, hdata]
    have hind : indentHeading ("# " ++ t) = "## " ++ t := by
      rw [h1, ← String.append_assoc]
      have h2 : ("#" : String) ++ "# " = "## " := rfl
      rw [h2]
    have hdocs : ("## " ++ t) ∈ (S.filterMap extractDocLine).map indentHeading := by
      rw [← hind]
      exact List.mem_map_of_mem _ ht
    simp only [cargo_readme_generate]
    refine List.mem_flatMap.mpr ⟨readmePlaceholder, hp, ?_⟩
    simp [hdocs]

/-- Witness for C6 at a one-heading source and a placeholder-only
template. -/
theorem c6_witness :
    (envVar [] "SKIP_README" = none ∧
      Fs.readFile [(["src", "main.rs"], FsEntry.file ["//! # H"]),
          (["README.tpl"], FsEntry.file [readmePlaceholder])]
        ["src", "main.rs"] = some ["//! # H"] ∧
      Fs.readFile [(["src", "main.rs"], FsEntry.file ["//! # H"]),
          (["README.tpl"], FsEntry.file [readmePlaceholder])]
        ["README.tpl"] = some [readmePlaceholder] ∧
      Fs.lookup [(["src", "main.rs"], FsEntry.file ["//! # H"]),
          (["README.tpl"], FsEntry.file [readmePlaceholder])]
        ["README.md"] ≠ some FsEntry.dir) ∧
    (generate_readme []
        [(["src", "main.rs"], FsEntry.file ["//! # H"]),
          (["README.tpl"], FsEntry.file [readmePlaceholder])] =
      ⟨Fs.set [(["src", "main.rs"], FsEntry.file ["//! # H"]),
            (["README.tpl"], FsEntry.file [readmePlaceholder])]
          ["README.md"]
          (FsEntry.file (cargo_readme_generate "logdog" ["//! # H"]
            [readmePlaceholder] true false false true)),
        none, [], [],
        [FsOp.openRead ["src", "main.rs"], FsOp.openRead ["README.tpl"],
          FsOp.createWrite ["README.md"]]⟩ ∧
      (∀ l ∈ [readmePlaceholder], l ≠ readmePlaceholder →
        l ∈ cargo_readme_generate "logdog" ["//! # H"] [readmePlaceholder]
          true false false true) ∧
      (readmePlaceholder ∈ [readmePlaceholder] →
        "# logdog" ∈ cargo_readme_generate "logdog" ["//! # H"]
          [readmePlaceholder] true false false true) ∧
      (readmePlaceholder ∈ [readmePlaceholder] →
        ∀ t, ("# " ++ t) ∈ List.filterMap extractDocLine ["//! # H"] →
          ("## " ++ t) ∈ cargo_readme_generate "logdog" ["//! # H"]
            [readmePlaceholder] true false false true)) :=
  ⟨⟨by decide, by decide, by decide, by decide⟩,
    c6_readme_generation []
      [(["src", "main.rs"], FsEntry.file ["//! # H"]),
        (["README.tpl"], FsEntry.file [readmePlaceholder])]
      ["//! # H"] [readmePlaceholder]
      (by decide) (by decide) (by decide) (by decide)⟩

/-- Helper for re-running the resolver on a filesystem whose link path
already holds the previous variant's link. -/
theorem rerun_spec (env2 : Env) (fs1 : Fs) (v1 v2 : String) (c2 : List String)
    (henv2 : envVar env2 "VARIANT" = some v2)
    (hne : v1 ≠ v2)
    (hlink1 : Fs.lookup fs1 ["conf", "current", "logdog.conf"] =
      some (FsEntry.symlink ["..", "logdog." ++ (v1 ++ ".conf")]))
    (hcat2 : Fs.lookup fs1 ["conf", "logdog." ++ (v2 ++ ".conf")] =
      some (FsEntry.file c2))
    (hpar : Fs.lookup (Fs.remove fs1 ["conf", "current", "logdog.conf"])
      ["conf", "current"] = some FsEntry.dir) :
    (symlink_variant env2 fs1).exit = none ∧
    Fs.lookup (symlink_variant env2 fs1).fs ["conf", "current", "logdog.conf"] =
      some (FsEntry.symlink ["..", "logdog." ++ (v2 ++ ".conf")]) ∧
    followOneHop (symlink_variant env2 fs1).fs
      ["conf", "current", "logdog.conf"] =
      some ["conf", "logdog." ++ (v2 ++ ".conf")] ∧
    Fs.lookup (symlink_variant env2 fs1).fs ["conf", "current", "logdog.conf"] ≠
      some (FsEntry.symlink ["..", "logdog." ++ (v1 ++ ".conf")]) := by
  have hfile2 := Fs.is_file_of_file fs1 ["conf", "logdog." ++ (v2 ++ ".conf")]
    c2 hcat2
  have hnd2 : Fs.lookup fs1 ["conf", "current", "logdog.conf"] ≠
      some FsEntry.dir := by
    rw [hlink1]
    simp
  have hrun2 := symlink_variant_success env2 fs1 v2 henv2 hfile2 hnd2 hpar
  rw [hrun2]
  refine ⟨rfl, Fs.lookup_set_self _ _ _, ?_, ?_⟩
  · have hls := Fs.lookup_set_self
      (Fs.remove fs1 ["conf", "current", "logdog.conf"])
      ["conf", "current", "logdog.conf"]
      (FsEntry.symlink ["..", "logdog." ++ (v2 ++ ".conf")])
    simp only [followOneHop, hls]
    have hdl : (["conf", "current", "logdog.conf"] : Path).dropLast =
        ["conf", "current"] := rfl
    rw [hdl, resolveRel_confCurrent _ (variantFilename_ne_dotdot v2)
      (variantFilename_ne_dot v2)]
  · rw [Fs.lookup_set_self]
    intro hc
    have h2 := Option.some.inj hc
    injection h2 with h3
    injection h3 with h4 h5
    injection h5 with h6 h7
    exact hne (variantFilename_inj v2 v1 h6).symm

/-- Claim C3: link replacement is idempotent.
(1) After a successful run for variant `V1`, running `symlink_variant`
for a different variant `V2` succeeds, leaves the canonical link holding `V2`'s target
(resolving to `V2`'s catalog file) and no remnant of `V1`'s link.
(2) Running the whole step (`main`) twice with unchanged inputs yields a
second success and an output filesystem that looks up identically to the
first run's — byte-identical artifacts.
(3) A pre-existing non-directory entry at the link path is removed
first, the creation then acting on the removed filesystem.
(4) A not-found removal failure is not fatal: the creation is still
attempted.
(5) Any other removal failure is fatal: `symlink_force` stops with that
error and never attempts the creation. -/
theorem c3_idempotent_replace :
    (∀ env1 env2 fs v1 v2 c2,
      envVar env1 "VARIANT" = some v1 →
      envVar env2 "VARIANT" = some v2 →
      v1 ≠ v2 →
      (symlink_variant env1 fs).exit = none →
      Fs.lookup fs ["conf", "logdog." ++ (v2 ++ ".conf")] =
        some (FsEntry.file c2) →
      (symlink_variant env2 (symlink_variant env1 fs).fs).exit = none ∧
      Fs.lookup (symlink_variant env2 (symlink_variant env1 fs).fs).fs
          ["conf", "current", "logdog.conf"] =
        some (FsEntry.symlink ["..", "logdog." ++ (v2 ++ ".conf")]) ∧
      followOneHop (symlink_variant env2 (symlink_variant env1 fs).fs).fs
          ["conf", "current", "logdog.conf"] =
        some ["conf", "logdog." ++ (v2 ++ ".conf")] ∧
      Fs.lookup (symlink_variant env2 (symlink_variant env1 fs).fs).fs
          ["conf", "current", "logdog.conf"] ≠
        some (FsEntry.symlink ["..", "logdog." ++ (v1 ++ ".conf")])) ∧
    (∀ env fs v c s tp,
      envVar env "VARIANT" = some v →
      Fs.lookup fs ["conf", "logdog." ++ (v ++ ".conf")] =
        some (FsEntry.file c) →
      Fs.lookup fs ["conf", "current"] = some FsEntry.dir →
      Fs.lookup fs ["conf", "current", "logdog.conf"] ≠ some FsEntry.dir →
      Fs.lookup fs ["src", "main.rs"] = some (FsEntry.file s) →
      Fs.lookup fs ["README.tpl"] = some (FsEntry.file tp) →
      Fs.lookup fs ["README.md"] ≠ some FsEntry.dir →
      (main env fs).exit = none ∧
      (main env (main env fs).fs).exit = none ∧
      ∀ p, Fs.lookup (main env (main env fs).fs).fs p =
        Fs.lookup (main env fs).fs p) ∧
    (∀ fs t l e, Fs.lookup fs l = some e → e ≠ FsEntry.dir →
      (symlink_force t l fs).trace =
        [FsOp.removeFile l, FsOp.createSymlink t l] ∧
      ((symlink_force t l fs).err = none →
        (symlink_force t l fs).fs =
          Fs.set (Fs.remove fs l) l (FsEntry.symlink t))) ∧
    (∀ fs t l, Fs.lookup fs l = none →
      FsOp.createSymlink t l ∈ (symlink_force t l fs).trace) ∧
    (∀ fs t l, Fs.lookup fs l = some FsEntry.dir →
      symlink_force t l fs =
        ⟨fs, some IOErrorKind.isADirectory, [FsOp.removeFile l]⟩) := by
  refine ⟨?_, ?_, ?_, ?_, ?_⟩
  · intro env1 env2 fs v1 v2 c2 henv1 henv2 hne hexit hcat2
    obtain ⟨v, henv1', hfile1, hnd1, hpar1, hfs1⟩ :=
      symlink_variant_exit_none env1 fs hexit
    rw [henv1] at henv1'
    have hv := Option.some.inj henv1'
    subst hv
    rw [hfs1]
    have hlink1 : Fs.lookup
        (Fs.set (Fs.remove fs ["conf", "current", "logdog.conf"])
          ["conf", "current", "logdog.conf"]
          (FsEntry.symlink ["..", "logdog." ++ (v1 ++ ".conf")]))
        ["conf", "current", "logdog.conf"] =
        some (FsEntry.symlink ["..", "logdog." ++ (v1 ++ ".conf")]) :=
      Fs.lookup_set_self _ _ _
    have hcat2' : Fs.lookup
        (Fs.set (Fs.remove fs ["conf", "current", "logdog.conf"])
          ["conf", "current", "logdog.conf"]
          (FsEntry.symlink ["..", "logdog." ++ (v1 ++ ".conf")]))
        ["conf", "logdog." ++ (v2 ++ ".conf")] = some (FsEntry.file c2) := by
      rw [Fs.lookup_set_ne _ _ _ _ (confPath_ne_link _),
        Fs.lookup_remove_ne _ _ _ (confPath_ne_link _)]
      exact hcat2
    have hpar2 : Fs.lookup
        (Fs.remove
          (Fs.set (Fs.remove fs ["conf", "current", "logdog.conf"])
            ["conf", "current", "logdog.conf"]
            (FsEntry.symlink ["..", "logdog." ++ (v1 ++ ".conf")]))
          ["conf", "current", "logdog.conf"])
        ["conf", "current"] = some FsEntry.dir := by
      rw [Fs.lookup_remove_ne _ _ _ (by decide),
        Fs.lookup_set_ne _ _ _ _ (by decide)]
      exact hpar1
    exact rerun_spec env2 _ v1 v2 c2 henv2 hne hlink1 hcat2' hpar2
  · intro env fs v c s tp henv hcat hdir hnd hsrc htpl hmd
    obtain ⟨hex1, hlink1, hsk1, hns1, hfr1⟩ :=
      main_fs_char env fs v c s tp henv hcat hdir hnd hsrc htpl hmd
    have hcat2 : Fs.lookup (main env fs).fs
        ["conf", "logdog." ++ (v ++ ".conf")] = some (FsEntry.file c) := by
      rw [hfr1 _ (confPath_ne_link _) (confPath_ne_readme _)]
      exact hcat
    have hdir2 : Fs.lookup (main env fs).fs ["conf", "current"] =
        some FsEntry.dir := by
      rw [hfr1 _ (by decide) (by decide)]
      exact hdir
    have hnd2 : Fs.lookup (main env fs).fs
        ["conf", "current", "logdog.conf"] ≠ some FsEntry.dir := by
      rw [hlink1]
      simp
    have hsrc2 : Fs.lookup (main env fs).fs ["src", "main.rs"] =
        some (FsEntry.file s) := by
      rw [hfr1 _ (by decide) (by decide)]
      exact hsrc
    have htpl2 : Fs.lookup (main env fs).fs ["README.tpl"] =
        some (FsEntry.file tp) := by
      rw [hfr1 _ (by decide) (by decide)]
      exact htpl
    have hmd2 : Fs.lookup (main env fs).fs ["README.md"] ≠
        some FsEntry.dir := by
      cases hskip : envVar env "SKIP_README" with
      | none =>
          rw [hsk1 hskip]
          simp
      | some sv =>
          have hne : envVar env "SKIP_README" ≠ none := by
            rw [hskip]
            simp
          rw [hns1 hne]
          exact hmd
    obtain ⟨hex2, hlink2, hsk2, hns2, hfr2⟩ :=
      main_fs_char env (main env fs).fs v c s tp henv hcat2 hdir2 hnd2
        hsrc2 htpl2 hmd2
    refine ⟨hex1, hex2, ?_⟩
    intro p
    by_cases hpl : p = ["conf", "current", "logdog.conf"]
    · rw [hpl, hlink2, hlink1]
    · by_cases hpr : p = ["README.md"]
      · rw [hpr]
        cases hskip : envVar env "SKIP_README" with
        | none => rw [hsk2 hskip, hsk1 hskip]
        | some sv =>
            have hne : envVar env "SKIP_README" ≠ none := by
              rw [hskip]
              simp
            rw [hns2 hne]
      · rw [hfr2 p hpl hpr]
  · intro fs t l e hl hnd
    have hnd' : Fs.lookup fs l ≠ some FsEntry.dir := by
      rw [hl]
      intro hc
      exact hnd (Option.some.inj hc)
    by_cases hp : Fs.lookup (Fs.remove fs l) l.dropLast = some FsEntry.dir
    · rw [symlink_force_success t l fs hnd' hp]
      exact ⟨rfl, fun _ => rfl⟩
    · rw [symlink_force_create_fail t l fs hnd' hp]
      refine ⟨rfl, ?_⟩
      intro hc
      simp at hc
  · intro fs t l hl
    have hnd' : Fs.lookup fs l ≠ some FsEntry.dir := by
      rw [hl]
      simp
    by_cases hp : Fs.lookup (Fs.remove fs l) l.dropLast = some FsEntry.dir
    · rw [symlink_force_success t l fs hnd' hp]
      simp
    · rw [symlink_force_create_fail t l fs hnd' hp]
      simp
  · intro fs t l hl
    exact symlink_force_dir t l fs hl

/-- Witness for C3: a `V1 = a` then `V2 = b` rerun, a double `main` run,
and the three `symlink_force` situations (existing file, nothing there,
directory in the way). -/
theorem c3_witness :
    ((symlink_variant wEnvA wFsAB).exit = none ∧
      (symlink_variant wEnvB (symlink_variant wEnvA wFsAB).fs).exit = none ∧
      Fs.lookup (symlink_variant wEnvB (symlink_variant wEnvA wFsAB).fs).fs
          ["conf", "current", "logdog.conf"] =
        some (FsEntry.symlink ["..", "logdog." ++ ("b" ++ ".conf")]) ∧
      followOneHop (symlink_variant wEnvB (symlink_variant wEnvA wFsAB).fs).fs
          ["conf", "current", "logdog.conf"] =
        some ["conf", "logdog." ++ ("b" ++ ".conf")] ∧
      Fs.lookup (symlink_variant wEnvB (symlink_variant wEnvA wFsAB).fs).fs
          ["conf", "current", "logdog.conf"] ≠
        some (FsEntry.symlink ["..", "logdog." ++ ("a" ++ ".conf")])) ∧
    ((main wEnvX wFsX).exit = none ∧
      (main wEnvX (main wEnvX wFsX).fs).exit = none ∧
      ∀ p, Fs.lookup (main wEnvX (main wEnvX wFsX).fs).fs p =
        Fs.lookup (main wEnvX wFsX).fs p) ∧
    ((symlink_force ["..", "t"] ["conf", "current", "logdog.conf"]
        [(["conf", "current", "logdog.conf"], FsEntry.file ["old"]),
          (["conf", "current"], FsEntry.dir)]).trace =
      [FsOp.removeFile ["conf", "current", "logdog.conf"],
        FsOp.createSymlink ["..", "t"] ["conf", "current", "logdog.conf"]] ∧
      ((symlink_force ["..", "t"] ["conf", "current", "logdog.conf"]
          [(["conf", "current", "logdog.conf"], FsEntry.file ["old"]),
            (["conf", "current"], FsEntry.dir)]).err = none →
        (symlink_force ["..", "t"] ["conf", "current", "logdog.conf"]
            [(["conf", "current", "logdog.conf"], FsEntry.file ["old"]),
              (["conf", "current"], FsEntry.dir)]).fs =
          Fs.set (Fs.remove
              [(["conf", "current", "logdog.conf"], FsEntry.file ["old"]),
                (["conf", "current"], FsEntry.dir)]
              ["conf", "current", "logdog.conf"])
            ["conf", "current", "logdog.conf"]
            (FsEntry.symlink ["..", "t"]))) ∧
    (FsOp.createSymlink ["..", "t"] ["conf", "current", "logdog.conf"] ∈
      (symlink_force ["..", "t"] ["conf", "current", "logdog.conf"]
        ([] : Fs)).trace) ∧
    (symlink_force ["..", "t"] ["conf", "current", "logdog.conf"]
        [(["conf", "current", "logdog.conf"], FsEntry.dir)] =
      ⟨[(["conf", "current", "logdog.conf"], FsEntry.dir)],
        some IOErrorKind.isADirectory,
        [FsOp.removeFile ["conf", "current", "logdog.conf"]]⟩) := by
  refine ⟨?_, ?_, ?_, ?_, ?_⟩
  · refine ⟨by decide, ?_⟩
    exact c3_idempotent_replace.1 wEnvA wEnvB wFsAB "a" "b" ["two"]
      (by decide) (by decide) (by decide) (by decide) (by decide)
  · exact c3_idempotent_replace.2.1 wEnvX wFsX "x" ["cmd"] ["//! d"]
      [readmePlaceholder] (by decide) (by decide) (by decide) (by decide)
      (by decide) (by decide) (by decide)
  · exact c3_idempotent_replace.2.2.1
      [(["conf", "current", "logdog.conf"], FsEntry.file ["old"]),
        (["conf", "current"], FsEntry.dir)]
      ["..", "t"] ["conf", "current", "logdog.conf"] (FsEntry.file ["old"])
      (by decide) (by decide)
  · exact c3_idempotent_replace.2.2.2.1 ([] : Fs) ["..", "t"]
      ["conf", "current", "logdog.conf"] (by decide)
  · exact c3_idempotent_replace.2.2.2.2
      [(["conf", "current", "logdog.conf"], FsEntry.dir)]
      ["..", "t"] ["conf", "current", "logdog.conf"] (by decide)

end LogdogBuild
